import Mathlib

/-!
Verification of the delayed-dispatch core of the `download_bot` repository.

The development shallowly embeds, in Lean, the parts of the program that the
verified properties are about:

* `src/message_queue.py` — the `QueuedMessage` dataclass and the `MessageQueue`
  class (`add_message`, the `_process_queue` polling loop, `_cleanup_files`,
  `clear_queue`, `_save_queue`, `_load_queue`, `get_status`);
* `src/main.py` — the media-group debounce/ceiling timer state machine
  (`_handle_media_group_message`, `_process_media_group_after_timeout`) and the
  download-timeout handling around `_start_media_group_download`;
* `src/proxy_manager.py` — proxy rotation (`_rotate_to_next_proxy`,
  `force_rotate_proxy`) and the text-format proxy-list parser
  (`_parse_text_proxy_list`).

Modelling conventions:

* Times are integers (the code only adds, subtracts and compares times; the
  values drawn by `random.uniform` enter the model as explicit parameters,
  bounded by hypotheses where the drawn range matters).
* `asyncio.get_event_loop().time()` is a monotonic clock whose origin is
  process-specific; it is modelled as `loopTime epoch wall = wall - epoch`,
  where `epoch` is the wall-clock instant at which the process's loop clock
  reads zero.  Restarting the process changes `epoch`.
* The file system is a list of paths of currently existing files; deleting a
  file removes its path from the list.
* Blocking sends and reachability probes are abstracted as boolean-valued
  functions supplied to the model (the outcome of the corresponding `await`).
-/

namespace DownloadBot

/-- One entry of `QueuedMessage.files` (`{'path': str, 'type': str}`). -/
structure FileInfo where
  path : String
  kind : String
deriving DecidableEq, Repr

/-- `QueuedMessage` dataclass, `src/message_queue.py:18-38`. -/
structure QueuedMessage where
  message_id : Int
  channel_title : String
  files : List FileInfo
  text_content : String
  send_time : Int
  added_time : Int
  priority : Int
  retry_count : Nat
  max_retries : Nat
deriving DecidableEq, Repr

/-- The dictionary produced by `QueuedMessage.to_dict` (`asdict(self)`): the
same nine keyed fields, as written into the JSON snapshot. -/
structure QueuedMessageDict where
  message_id : Int
  channel_title : String
  files : List FileInfo
  text_content : String
  send_time : Int
  added_time : Int
  priority : Int
  retry_count : Nat
  max_retries : Nat
deriving DecidableEq, Repr

/-- `QueuedMessage.to_dict`, `src/message_queue.py:31-33` (`asdict`). -/
def QueuedMessage.to_dict (m : QueuedMessage) : QueuedMessageDict :=
  ⟨m.message_id, m.channel_title, m.files, m.text_content, m.send_time,
    m.added_time, m.priority, m.retry_count, m.max_retries⟩

/-- `QueuedMessage.from_dict`, `src/message_queue.py:35-38` (`cls(**data)`). -/
def QueuedMessage.from_dict (d : QueuedMessageDict) : QueuedMessage :=
  ⟨d.message_id, d.channel_title, d.files, d.text_content, d.send_time,
    d.added_time, d.priority, d.retry_count, d.max_retries⟩

/-- The configuration fields of `Config` (`src/config.py`) that the message
queue reads. -/
structure QueueConfig where
  max_queue_size : Nat
  batch_send_enabled : Bool
  batch_size : Nat
  batch_interval : Int
  min_send_delay : Int
  max_send_delay : Int
deriving Repr

/-- The mutable state of a `MessageQueue` (`src/message_queue.py:44-57`):
the pending list and the three cumulative counters. -/
structure QueueState where
  queue : List QueuedMessage
  total_queued : Nat
  total_sent : Nat
  total_failed : Nat
deriving DecidableEq, Repr

/-- Fresh state built by `MessageQueue.__init__` before any load. -/
def initialQueueState : QueueState := ⟨[], 0, 0, 0⟩

/-- The sort key comparison used by every `self.queue.sort(key=lambda x:
(x.priority, x.send_time))` call: lexicographic on `(priority, send_time)`. -/
def keyLe (a b : QueuedMessage) : Bool :=
  if a.priority < b.priority then true
  else if b.priority < a.priority then false
  else decide (a.send_time ≤ b.send_time)

/-- Stable insertion of `x` after all already-present elements whose key is
`≤` the key of `x`. -/
def insertStable (x : QueuedMessage) : List QueuedMessage → List QueuedMessage
  | [] => [x]
  | y :: ys => if keyLe y x then y :: insertStable x ys else x :: y :: ys

/-- Stable sort by `(priority, send_time)`, modelling Python's stable
`list.sort(key=...)`: elements are inserted left to right, each after all
earlier elements with a key `≤` its own. -/
def sortQueue (l : List QueuedMessage) : List QueuedMessage :=
  l.foldl (fun acc x => insertStable x acc) []

/-- `asyncio.get_event_loop().time()`: a monotonic clock whose origin is
process-specific.  `epoch` is the wall-clock instant at which this process's
loop clock reads zero, so at wall-clock time `wall` the loop clock reads
`wall - epoch`. -/
def loopTime (epoch wall : Int) : Int := wall - epoch

/-- The earliest wall-clock instant at which `_process_queue` running in a
process with loop epoch `epoch` treats `m` as due: the loop dispatches `m`
once `loopTime epoch wall ≥ m.send_time` (`src/message_queue.py:144`),
i.e. once `wall ≥ epoch + m.send_time`. -/
def dueAt (epoch : Int) (m : QueuedMessage) : Int := epoch + m.send_time

/-- `MessageQueue.add_message`, `src/message_queue.py:59-107`.

`now` is the current event-loop clock value; `delay` is the value drawn by
`random.uniform` in the taken branch (`uniform(0, 300)` in batch mode,
`uniform(min_send_delay, max_send_delay)` otherwise).  Returns the Python
return value paired with the updated queue state.  The saved-queue side
effect (`_save_queue`) writes a snapshot and does not change in-memory state;
it is modelled separately by `save_queue`. -/
def add_message (cfg : QueueConfig) (now delay : Int) (msg_id : Int)
    (text : String) (files : List FileInfo) (channel_title : String)
    (st : QueueState) : Bool × QueueState :=
  if cfg.max_queue_size ≤ st.queue.length then (false, st)
  else
    let send_delay : Int :=
      if cfg.batch_send_enabled then
        ((st.queue.length / cfg.batch_size : Nat) : Int) * cfg.batch_interval
          + delay
      else delay
    let m : QueuedMessage :=
      { message_id := msg_id
        channel_title := channel_title
        files := files
        text_content := text
        send_time := now + send_delay
        added_time := now
        priority := 0
        retry_count := 0
        max_retries := 3 }
    (true, { st with
      queue := sortQueue (st.queue ++ [m])
      total_queued := st.total_queued + 1 })

/-- `MessageQueue._cleanup_files`, `src/message_queue.py:211-220`: unlink each
listed path that exists.  `fs` is the list of currently existing files. -/
def cleanup_files (files : List FileInfo) (fs : List String) : List String :=
  fs.filter (fun p => !(files.any (fun f => f.path == p)))

/-- The per-tick environment of `_process_queue`: the outcome of attempting to
send a given message (`_send_queued_message` succeeded or raised), and the
value drawn by `random.uniform(300, 900)` for its retry backoff. -/
structure TickEnv where
  sendOk : QueuedMessage → Bool
  retryDelay : QueuedMessage → Int

/-- The body of the `for queued_msg in messages_to_send` loop of
`MessageQueue._process_queue`, `src/message_queue.py:152-169`, processing one
due message: on success increment `total_sent` and (inside
`_send_queued_message`, `src/message_queue.py:202-203`) delete the message's
files; on failure with `retry_count < max_retries` re-insert the message with
an incremented retry count and a fresh `send_time = now + backoff`, keeping
the queue sorted; otherwise increment `total_failed` and drop the message. -/
def processOne (env : TickEnv) (now : Int) (m : QueuedMessage)
    (st : QueueState) (fs : List String) : QueueState × List String :=
  if env.sendOk m then
    ({ st with total_sent := st.total_sent + 1 }, cleanup_files m.files fs)
  else if m.retry_count < m.max_retries then
    let m' : QueuedMessage :=
      { m with retry_count := m.retry_count + 1
               send_time := now + env.retryDelay m }
    ({ st with queue := sortQueue (st.queue ++ [m']) }, fs)
  else
    ({ st with total_failed := st.total_failed + 1 }, fs)

/-- One tick of `MessageQueue._process_queue`, `src/message_queue.py:136-173`:
partition the queue into due (`current_time >= msg.send_time`) and remaining
messages in order, keep the remaining ones, and process each due message in
queue order with `processOne`. -/
def processTick (env : TickEnv) (now : Int) (st : QueueState)
    (fs : List String) : QueueState × List String :=
  let due := st.queue.filter (fun m => decide (m.send_time ≤ now))
  let remaining := st.queue.filter (fun m => !(decide (m.send_time ≤ now)))
  due.foldl (fun p m => processOne env now m p.1 p.2)
    ({ st with queue := remaining }, fs)

/-- `MessageQueue.clear_queue`, `src/message_queue.py:249-256`: return the
removed count and empty the pending list; the counters are not touched. -/
def clear_queue (st : QueueState) : Nat × QueueState :=
  (st.queue.length, { st with queue := [] })

/-- The `stats` object of the persisted snapshot. -/
structure QueueStats where
  total_queued : Nat
  total_sent : Nat
  total_failed : Nat
deriving DecidableEq, Repr

/-- The JSON document written by `MessageQueue._save_queue`,
`src/message_queue.py:261-269`. -/
structure QueueSnapshot where
  queue : List QueuedMessageDict
  stats : QueueStats
  saved_at : String
deriving DecidableEq, Repr

/-- `MessageQueue._save_queue`, `src/message_queue.py:258-277`: snapshot the
pending items (via `to_dict`, in queue order) and the three counters. -/
def save_queue (st : QueueState) (savedAt : String) : QueueSnapshot :=
  ⟨st.queue.map QueuedMessage.to_dict,
    ⟨st.total_queued, st.total_sent, st.total_failed⟩, savedAt⟩

/-- `MessageQueue._load_queue`, `src/message_queue.py:279-307`: starting from
the fresh state, append `from_dict` of each stored entry in order, restore the
counters, and sort by `(priority, send_time)`. -/
def load_queue (snap : QueueSnapshot) : QueueState :=
  { queue := sortQueue (snap.queue.map QueuedMessage.from_dict)
    total_queued := snap.stats.total_queued
    total_sent := snap.stats.total_sent
    total_failed := snap.stats.total_failed }

/-! ## Media-group debounce/ceiling state machine (`src/main.py`) -/

/-- `self.media_group_timeout = 3` (`src/main.py:58`): idle time waited for
more messages of a group. -/
def media_group_timeout : Int := 3

/-- `self.media_group_max_wait = 60` (`src/main.py:59`): advertised maximum
total time to wait for new messages. -/
def media_group_max_wait : Int := 60

/-- `self.download_timeout = 3600` (`src/main.py:60`): download timeout. -/
def download_timeout : Int := 3600

/-- The collecting-phase fields of one `self.media_groups[...]` entry
(`src/main.py:572-580`).  `timerDue` is the instant at which the currently
pending `_process_media_group_after_timeout` task will wake
(creation time + `media_group_timeout`); each arrival cancels the pending
task and starts a fresh one (`src/main.py:587-594`). -/
structure MGState where
  messages : Nat
  last_message_time : Int
  start_time : Int
  timerDue : Int
deriving DecidableEq, Repr

/-- `TelegramUserClient._handle_media_group_message`, `src/main.py:566-594`,
for one group key: create the group state on first arrival (`last` = `start` =
now), append the message, update `last_message_time`, cancel the pending
timer and schedule a new one `media_group_timeout` (= `Tsettle`) from now. -/
def handleArrival (Tsettle : Int) (g : Option MGState) (t : Int) : MGState :=
  match g with
  | none =>
      { messages := 1, last_message_time := t, start_time := t,
        timerDue := t + Tsettle }
  | some g =>
      { g with messages := g.messages + 1, last_message_time := t,
               timerDue := t + Tsettle }

/-- Result of a collecting-phase timer wake. -/
inductive FireResult where
  | resched (g : MGState)
  | settle (forced : Bool)
deriving DecidableEq, Repr

/-- The `status == 'collecting'` branch of
`TelegramUserClient._process_media_group_after_timeout`, `src/main.py:609-623`,
waking at time `t`: if `t - last_message_time < Tsettle` a fresh timer is
started; otherwise the group settles (the download starts), with
`forced = true` exactly when the `t - start_time > Tmax` branch is taken
(`src/main.py:617-620`) — note both settle branches perform the same
`_start_media_group_download` call. -/
def timerFire (Tsettle Tmax : Int) (g : MGState) (t : Int) : FireResult :=
  if t - g.last_message_time < Tsettle then
    .resched { g with timerDue := t + Tsettle }
  else if Tmax < t - g.start_time then
    .settle true
  else
    .settle false

/-- Fold of `handleArrival` over a list of arrival instants, starting with no
group state. -/
def collectRun (Tsettle : Int) (arrivals : List Int) : Option MGState :=
  arrivals.foldl (fun g t => some (handleArrival Tsettle g t)) none

/-- Certificate that, along a run, every arrival after the first lands
strictly before the then-pending timer wake, so every pending
`_process_media_group_after_timeout` task is cancelled (`src/main.py:588-589`)
before it can run: given the wake instant `due` of the pending timer, each
next arrival `t` must satisfy `t < due` and reschedules the wake to
`t + Tsettle`.  When this holds, the first timer actually to fire during
collection is the one pending after the last arrival. -/
def arrivalsPreempt (Tsettle : Int) : Int → List Int → Bool
  | _, [] => true
  | due, t :: rest =>
      decide (t < due) && arrivalsPreempt Tsettle (t + Tsettle) rest

/-- The `status == 'downloading'` branch state
(`src/main.py:625-636` and `_start_media_group_download`,
`src/main.py:646-727`): whether the group key is still in
`self.media_groups`, when its download started, which artifact files the
download has produced so far, and whether the download coroutine is still
running. -/
structure DLState where
  groupPresent : Bool
  download_start_time : Int
  files : List String
  taskRunning : Bool
deriving DecidableEq, Repr

/-- The `status == 'downloading'` branch of
`_process_media_group_after_timeout`, `src/main.py:625-636`, waking at `t`:
if `t - download_start_time > Tdl` the group entry is deleted from
`self.media_groups` — and nothing else happens: no file is removed and the
running download task is not cancelled; otherwise a fresh monitor timer is
started (no modelled state change). -/
def downloadTimerFire (Tdl : Int) (s : DLState) (t : Int) : DLState :=
  if Tdl < t - s.download_start_time then { s with groupPresent := false }
  else s

/-- Whether the tail of `_start_media_group_download`
(`src/main.py:681-721`) invokes `bot_handler.forward_message` once the
download loop finishes: it forwards exactly when `all_downloaded_files` is
non-empty (`src/main.py:690-702`).  The group's continued membership in
`self.media_groups` is *not* consulted before forwarding — the only later
use of the map is the final `del`, whose `KeyError` on an already-removed
group is swallowed by the `except` handler (`src/main.py:723-727`). -/
def downloadCompleteForwards (files : List String) (_groupPresent : Bool) :
    Bool :=
  !files.isEmpty

/-! ## Proxy rotation (`src/proxy_manager.py`) -/

/-- One proxy record, as produced by `_parse_text_proxy_list`
(`src/proxy_manager.py:128-135`). -/
structure Proxy where
  ptype : String
  host : String
  port : Int
  username : String
  password : String
  name : String
deriving DecidableEq, Repr

/-- The failed-set key of a proxy: `f"{host}:{port}"`
(`src/proxy_manager.py:178`). -/
def proxyKey (p : Proxy) : String := p.host ++ ":" ++ toString p.port

/-- The `ProxyManager` state touched by rotation
(`src/proxy_manager.py:20-28`). -/
structure PMState where
  current_proxy_index : Nat
  proxy_list : List Proxy
  last_rotation_time : Int
  failed_proxies : List String
deriving DecidableEq, Repr

/-- The `while attempts < max_attempts` loop of
`ProxyManager._rotate_to_next_proxy`, `src/proxy_manager.py:172-197`, with
`fuel = max_attempts - attempts` and `test` the outcome of `_test_proxy`:
advance the index round-robin; skip a candidate whose key is in the
failed-set; accept the first candidate passing its probe (setting
`last_rotation_time`); on probe failure add the key to the failed-set and
continue.  When the attempts are exhausted the failed-set is cleared and the
index is restored to `old_index` (`src/proxy_manager.py:195-197`). -/
def rotateLoop (test : Proxy → Bool) (now : Int) (old_index : Nat) :
    Nat → PMState → PMState
  | 0, st =>
      { st with failed_proxies := [], current_proxy_index := old_index }
  | fuel + 1, st =>
      let idx := (st.current_proxy_index + 1) % st.proxy_list.length
      match st.proxy_list[idx]? with
      | none => { st with current_proxy_index := idx }
      | some p =>
          if proxyKey p ∈ st.failed_proxies then
            rotateLoop test now old_index fuel
              { st with current_proxy_index := idx }
          else if test p then
            { st with current_proxy_index := idx, last_rotation_time := now }
          else
            rotateLoop test now old_index fuel
              { st with current_proxy_index := idx,
                        failed_proxies := proxyKey p :: st.failed_proxies }

/-- `ProxyManager._rotate_to_next_proxy`, `src/proxy_manager.py:166-197`:
run the scan with `max_attempts = len(self.proxy_list)` starting from the
current index.  The Python coroutine returns `None` in every case — neither
success nor full-cycle failure is reported to the caller. -/
def rotate_to_next_proxy (test : Proxy → Bool) (now : Int) (st : PMState) :
    PMState :=
  rotateLoop test now st.current_proxy_index st.proxy_list.length st

/-- `ProxyManager.force_rotate_proxy`, `src/proxy_manager.py:310-317`:
returns `False` only when the list has at most one proxy; otherwise it runs
the rotation and returns `True` regardless of the rotation's outcome. -/
def force_rotate_proxy (test : Proxy → Bool) (now : Int) (st : PMState) :
    Bool × PMState :=
  if st.proxy_list.length ≤ 1 then (false, st)
  else (true, rotate_to_next_proxy test now st)

/-! ## Text proxy-list parsing (`src/proxy_manager.py:104-141`)

Python strings are modelled as their character sequences (`List Char`), and
the `str` operations the parser uses (`split`, `strip`, `startswith`, `in`,
`int()`) are defined below following Python's documented semantics, by
structural recursion so that concrete runs of the parser reduce. -/

/-- Python `str.strip()` whitespace (the ASCII portion; non-ASCII whitespace
is out of scope of this model). -/
def isPySpace (c : Char) : Bool :=
  c == ' ' || c == '\t' || c == '\n' || c == '\r' || c == '\x0b' || c == '\x0c'

/-- Python `s.strip()`: drop leading and trailing whitespace. -/
def pyStrip (s : List Char) : List Char :=
  ((s.dropWhile isPySpace).reverse.dropWhile isPySpace).reverse

/-- Whether `sep` is an initial segment of `s`. -/
def leadsWith : List Char → List Char → Bool
  | [], _ => true
  | _ :: _, [] => false
  | a :: as, b :: bs => a == b && leadsWith as bs

/-- Worker for `pySplit`: emits the chunk collected in `acc` (reversed) at
each non-overlapping occurrence of `sep`, scanning left to right.  `fuel`
bounds the recursion; it is initialised to the length of the scanned list,
which only shrinks. -/
def pySplitGo (sep : List Char) : Nat → List Char → List Char →
    List (List Char)
  | 0, acc, _ => [acc.reverse]
  | _ + 1, acc, [] => [acc.reverse]
  | fuel + 1, acc, c :: cs =>
      if leadsWith sep (c :: cs) then
        acc.reverse :: pySplitGo sep fuel [] (List.drop sep.length (c :: cs))
      else
        pySplitGo sep fuel (c :: acc) cs

/-- Python `s.split(sep)` for a non-empty separator: the chunks between
non-overlapping occurrences of `sep`, found left to right; `n` occurrences
yield `n+1` chunks (empty chunks included). -/
def pySplit (sep s : List Char) : List (List Char) :=
  pySplitGo sep s.length [] s

/-- Python `s.split(sep, 1)`: split at the first occurrence only.  Returns
the part before the first separator and, when the separator occurs at all,
the rest (later occurrences intact). -/
def pySplit1 (sep s : List Char) : List Char × Option (List Char) :=
  match pySplit sep s with
  | [] => (s, none)
  | [x] => (x, none)
  | x :: xs => (x, some (List.intercalate sep xs))

/-- Digit run of a Python `int()` literal after the optional sign: ASCII
digits with single underscores allowed strictly between digits.  `acc` is
the value of the digits consumed so far. -/
def pyDigitsAux (acc : Nat) : List Char → Option Nat
  | [] => some acc
  | c :: cs =>
      if c = '_' then
        match cs with
        | [] => none
        | d :: ds =>
            if d.isDigit then pyDigitsAux (acc * 10 + (d.toNat - 48)) ds
            else none
      else if c.isDigit then pyDigitsAux (acc * 10 + (c.toNat - 48)) cs
      else none

/-- Unsigned part of a Python `int()` literal: must begin with a digit. -/
def pyIntCore (l : List Char) : Option Nat :=
  match l with
  | [] => none
  | c :: _ => if c.isDigit then pyDigitsAux 0 l else none

/-- Python `int(s)` for a decimal string: surrounding whitespace is
stripped, then an optional `+`/`-` sign precedes the digits; any other shape
raises `ValueError`, modelled as `none`. -/
def pyInt (s : List Char) : Option Int :=
  match pyStrip s with
  | '+' :: rest => (pyIntCore rest).map Int.ofNat
  | '-' :: rest => (pyIntCore rest).map (fun n => -(n : Int))
  | l => (pyIntCore l).map Int.ofNat

/-- The per-line `try` body of `ProxyManager._parse_text_proxy_list`,
`src/proxy_manager.py:112-139`, on an already-stripped non-blank non-comment
line.  `none` models both the silent skip of a line without `'://'`
(`src/proxy_manager.py:114`) and a `ValueError` caught by the per-line
`except` (tuple-unpack of `rest.split('@')` into two names, of
`auth_part.split(':', 1)` into two names, of `host_part.split(':')` into two
names, or `int(port)` failing). -/
def parseProxyLine (line : List Char) : Option Proxy :=
  match pySplit [':', '/', '/'] line with
  | ptype :: rest :: _ =>
      let auth : Option (List Char × List Char × List Char) :=
        if rest.contains '@' then
          match pySplit ['@'] rest with
          | [auth_part, host_part] =>
              match pySplit1 [':'] auth_part with
              | (username, some password) =>
                  some (username, password, host_part)
              | (_, none) => none
          | _ => none
        else
          some ([], [], rest)
      match auth with
      | none => none
      | some (username, password, host_part) =>
          match pySplit [':'] host_part with
          | [host, portStr] =>
              match pyInt portStr with
              | some port =>
                  -- `f"{host}:{port}"` is evaluated with `port` still bound
                  -- to the un-converted string (`src/proxy_manager.py:126/134`)
                  some { ptype := String.mk ptype, host := String.mk host,
                         port := port,
                         username := String.mk username,
                         password := String.mk password,
                         name := String.mk host ++ ":" ++ String.mk portStr }
              | none => none
          | _ => none
  | _ => none

/-- Whether a stripped line starts with `#`. -/
def startsWithHash : List Char → Bool
  | '#' :: _ => true
  | _ => false

/-- The `for line in content.split('\n')` loop of
`ProxyManager._parse_text_proxy_list`, `src/proxy_manager.py:106-141`:
strip each line; skip blank lines and lines starting with `#`; append the
parsed proxy of a well-formed line; a malformed line only logs a warning and
the loop continues with the remaining lines. -/
def parseLinesLoop : List (List Char) → List Proxy
  | [] => []
  | raw :: rest =>
      let line := pyStrip raw
      if line = [] then parseLinesLoop rest
      else if startsWithHash line then parseLinesLoop rest
      else
        match parseProxyLine line with
        | some p => p :: parseLinesLoop rest
        | none => parseLinesLoop rest

/-- `ProxyManager._parse_text_proxy_list`, `src/proxy_manager.py:104-141`,
on the file content given as its character sequence. -/
def parseTextProxyList (content : List Char) : List Proxy :=
  parseLinesLoop (pySplit ['\n'] content)

/-! ## Concrete objects used by witnesses and counterexamples -/

/-- A queued message whose retries are exhausted (`retry_count = max_retries
= 3`) and which owns one artifact file. -/
def mA : QueuedMessage := ⟨1, "ch", [⟨"a.jpg", "photo"⟩], "txt", 0, 0, 0, 3, 3⟩

/-- A configuration with queue capacity 1 (other fields at the `Config`
defaults of `src/config.py:46-54`). -/
def cfg1 : QueueConfig := ⟨1, false, 5, 1800, 300, 7200⟩

/-- The `Config` defaults of `src/config.py:46-54`: capacity 100, batch mode
off. -/
def cfgNormal : QueueConfig := ⟨100, false, 5, 1800, 300, 7200⟩

/-- A queue state holding exactly one pending item, at capacity for
`cfg1`. -/
def stFull : QueueState := ⟨[mA], 1, 0, 0⟩

/-- The message built by `add_message cfgNormal` at loop time 100 with draw
50: `send_time = 150` is a loop-clock value. -/
def mSched : QueuedMessage := ⟨7, "ch", [], "t", 150, 100, 0, 0, 3⟩

/-! ## Queue lemmas -/

theorem insertStable_perm (x : QueuedMessage) (l : List QueuedMessage) :
    (insertStable x l).Perm (x :: l) := by
  induction l with
  | nil => simp [insertStable]
  | cons y ys ih =>
    simp only [insertStable]
    split
    · exact (ih.cons y).trans (List.Perm.swap x y ys)
    · exact List.Perm.refl _

theorem foldl_insertStable_perm (l : List QueuedMessage) :
    ∀ acc, (l.foldl (fun a x => insertStable x a) acc).Perm (acc ++ l) := by
  induction l with
  | nil => intro acc; simp
  | cons x xs ih =>
    intro acc
    simp only [List.foldl_cons]
    refine (ih (insertStable x acc)).trans ?_
    refine ((insertStable_perm x acc).append_right xs).trans ?_
    simp only [List.cons_append]
    exact List.perm_middle.symm

/-- `self.queue.sort(...)` permutes the queue: no element is created or
lost. -/
theorem sortQueue_perm (l : List QueuedMessage) : (sortQueue l).Perm l := by
  simpa using foldl_insertStable_perm l []

theorem sortQueue_length (l : List QueuedMessage) :
    (sortQueue l).length = l.length :=
  (sortQueue_perm l).length_eq

theorem length_filter_not {α : Type} (p : α → Bool) (l : List α) :
    (l.filter p).length + (l.filter (fun a => !(p a))).length = l.length := by
  induction l with
  | nil => rfl
  | cons a l ih =>
    cases hpa : p a <;> simp [List.filter_cons, hpa] <;> omega

/-- Every due message processed by `_process_queue` either stays in the
queue (retry) or bumps exactly one terminal counter. -/
theorem processOne_measure (env : TickEnv) (now : Int) (m : QueuedMessage)
    (st : QueueState) (fs : List String) :
    (processOne env now m st fs).1.queue.length
        + (processOne env now m st fs).1.total_sent
        + (processOne env now m st fs).1.total_failed
      = st.queue.length + st.total_sent + st.total_failed + 1 := by
  unfold processOne
  split
  · simp only []
    omega
  · split
    · simp only [sortQueue_length, List.length_append, List.length_cons,
        List.length_nil]
      omega
    · simp only []
      omega

theorem processFold_measure (env : TickEnv) (now : Int) :
    ∀ (due : List QueuedMessage) (st : QueueState) (fs : List String),
      (due.foldl (fun p m => processOne env now m p.1 p.2) (st, fs)).1.queue.length
          + (due.foldl (fun p m => processOne env now m p.1 p.2) (st, fs)).1.total_sent
          + (due.foldl (fun p m => processOne env now m p.1 p.2) (st, fs)).1.total_failed
        = st.queue.length + st.total_sent + st.total_failed + due.length := by
  intro due
  induction due with
  | nil => intro st fs; simp
  | cons m rest ih =>
    intro st fs
    simp only [List.foldl_cons, List.length_cons]
    have h := ih (processOne env now m st fs).1 (processOne env now m st fs).2
    have hm := processOne_measure env now m st fs
    rw [Prod.mk.eta] at h
    omega

/-! ## Claim theorems -/

/-- **C8 (amended)**: each `_process_queue` tick conserves
`|queue| + totalSent + totalFailed`: every item leaving the queue during
dispatch is counted in exactly one terminal counter (`get_status` reports
these same counters, `src/message_queue.py:241-243`).  The original claim
fails for `clear_queue`, see `clear_queue_uncounted_removal_cex`. -/
theorem process_tick_conserves_items (env : TickEnv) (now : Int)
    (st : QueueState) (fs : List String) :
    (processTick env now st fs).1.queue.length
        + (processTick env now st fs).1.total_sent
        + (processTick env now st fs).1.total_failed
      = st.queue.length + st.total_sent + st.total_failed := by
  unfold processTick
  rw [processFold_measure]
  have h := length_filter_not (fun m => decide (m.send_time ≤ now)) st.queue
  simp only [] at h ⊢
  omega

/-- **C8 (counterexample)**: `clear_queue` removes a pending item while
leaving both terminal counters untouched, so an item can disappear from the
queue without being counted in `totalSent` or `totalFailed`. -/
theorem clear_queue_uncounted_removal_cex :
    clear_queue stFull = (1, ⟨[], 1, 0, 0⟩)
      ∧ stFull.queue.length = 1
      ∧ stFull.total_sent = 0 ∧ stFull.total_failed = 0 := by
  exact ⟨rfl, rfl, rfl, rfl⟩

/-- **C7**: `add_message` on a queue whose length equals the configured
capacity returns `False` and leaves the state (pending list and every
counter) exactly unchanged; no file operation occurs in this path. -/
theorem enqueue_full_rejects_unchanged (cfg : QueueConfig)
    (now delay msg_id : Int) (text : String) (files : List FileInfo)
    (title : String) (st : QueueState)
    (h : st.queue.length = cfg.max_queue_size) :
    add_message cfg now delay msg_id text files title st = (false, st) := by
  unfold add_message
  rw [if_pos (le_of_eq h.symm)]

/-- Witness for `enqueue_full_rejects_unchanged` at capacity 1. -/
theorem enqueue_full_rejects_unchanged_witness :
    stFull.queue.length = cfg1.max_queue_size
      ∧ add_message cfg1 0 300 9 "t" [] "ch" stFull = (false, stFull) :=
  ⟨by decide, enqueue_full_rejects_unchanged cfg1 0 300 9 "t" [] "ch" stFull
    (by decide)⟩

/-- **C9**: serialising and reloading is lossless: `from_dict ∘ to_dict` is
the identity on `QueuedMessage`, and a `_save_queue` snapshot reloaded by
`_load_queue` restores the same multiset of pending items and the same three
cumulative counters (the reload re-sorts by `(priority, send_time)`). -/
theorem snapshot_roundtrip (m : QueuedMessage) (st : QueueState)
    (sa : String) :
    QueuedMessage.from_dict (QueuedMessage.to_dict m) = m
      ∧ (load_queue (save_queue st sa)).queue.Perm st.queue
      ∧ (load_queue (save_queue st sa)).total_queued = st.total_queued
      ∧ (load_queue (save_queue st sa)).total_sent = st.total_sent
      ∧ (load_queue (save_queue st sa)).total_failed = st.total_failed := by
  refine ⟨rfl, ?_, rfl, rfl, rfl⟩
  show (sortQueue ((st.queue.map QueuedMessage.to_dict).map
    QueuedMessage.from_dict)).Perm st.queue
  rw [List.map_map]
  have h : (QueuedMessage.from_dict ∘ QueuedMessage.to_dict) = id :=
    funext (fun _ => rfl)
  rw [h, List.map_id]
  exact sortQueue_perm _

/-- **C3 (counterexample)**: a due message whose retries are exhausted and
that fails dispatch bumps `total_failed` and is dropped, but its artifact
file `a.jpg` is still on disk afterwards — `_cleanup_files` runs only on the
success path, so the artifacts are not released. -/
theorem terminal_failure_keeps_files_cex :
    mA.files = [⟨"a.jpg", "photo"⟩]
      ∧ processOne ⟨fun _ => false, fun _ => 300⟩ 0 mA ⟨[], 0, 0, 0⟩ ["a.jpg"]
          = (⟨[], 0, 0, 1⟩, ["a.jpg"])
      ∧ "a.jpg" ∈ (processOne ⟨fun _ => false, fun _ => 300⟩ 0 mA
          ⟨[], 0, 0, 0⟩ ["a.jpg"]).2 := by
  exact ⟨rfl, rfl, by decide⟩

/-- **C3 (amended)**: when a due item fails dispatch with
`retry_count ≥ max_retries`, the tick increments `total_failed`, does not
re-insert the item, and performs no file deletion — the artifact files
remain exactly as they were (they are neither sent nor released). -/
theorem terminal_failure_drops_item_keeps_files (env : TickEnv) (now : Int)
    (m : QueuedMessage) (st : QueueState) (fs : List String)
    (hfail : env.sendOk m = false) (hmax : m.max_retries ≤ m.retry_count) :
    processOne env now m st fs
      = ({ st with total_failed := st.total_failed + 1 }, fs) := by
  unfold processOne
  rw [hfail]
  simp only [Bool.false_eq_true, if_false]
  rw [if_neg (Nat.not_lt.mpr hmax)]

/-- Witness for `terminal_failure_drops_item_keeps_files`. -/
theorem terminal_failure_drops_item_keeps_files_witness :
    processOne ⟨fun _ => false, fun _ => 300⟩ 5 mA stFull ["b.jpg"]
      = ({ stFull with total_failed := stFull.total_failed + 1 }, ["b.jpg"]) :=
  terminal_failure_drops_item_keeps_files ⟨fun _ => false, fun _ => 300⟩ 5 mA
    stFull ["b.jpg"] rfl (by decide)

/-- **C1**: the scheduled send time is computed from
`asyncio.get_event_loop().time()` — a process-relative monotonic clock — and
persisted verbatim, so the absolute wall-clock instant at which a reloaded
item becomes due depends on the new process's loop epoch: an item enqueued
at wall time 100 (epoch 0, draw 50) is due at wall 150 before a restart but
only at wall 1150 in a restarted process whose loop epoch is 1000.  The
final conjunct is the bridge: `_process_queue` treats `m` as due exactly at
wall times `≥ dueAt epoch m`. -/
theorem queue_schedule_is_loop_relative :
    add_message cfgNormal (loopTime 0 100) 50 7 "t" [] "ch" initialQueueState
        = (true, ⟨[mSched], 1, 0, 0⟩)
      ∧ QueuedMessage.from_dict (QueuedMessage.to_dict mSched) = mSched
      ∧ dueAt 0 mSched = 150
      ∧ dueAt 1000 mSched = 1150
      ∧ (1150 : Int) ≠ 150
      ∧ (∀ (epoch wall : Int) (m : QueuedMessage),
          m.send_time ≤ loopTime epoch wall ↔ dueAt epoch m ≤ wall) := by
  refine ⟨by decide, rfl, rfl, rfl, by decide, ?_⟩
  intro epoch wall m
  unfold loopTime dueAt
  omega

/-- **C2**: with the code's constants `T_settle = 3`, `T_max_wait = 60` and
one message arriving at each of `t = 0, 1, …, 61` (every gap `1 < T_settle`,
span `61 > T_max_wait`), every pending settle timer is cancelled before
firing (`arrivalsPreempt`), so the first timer actually to fire wakes at
`t = 64 = last arrival + T_settle` — and only then settles (via the
`max_wait` branch).  Settlement therefore happens at `64`, strictly after
the claimed ceiling `first_seen + T_max_wait = 60`: the ceiling never cuts
collection short while sub-`T_settle` arrivals continue. -/
theorem media_group_ceiling_not_enforced :
    arrivalsPreempt media_group_timeout ((0 : Int) + media_group_timeout)
        (((List.range 62).map (fun n => (n : Int))).tail) = true
      ∧ collectRun media_group_timeout
          ((List.range 62).map (fun n => (n : Int))) = some ⟨62, 61, 0, 64⟩
      ∧ timerFire media_group_timeout media_group_max_wait ⟨62, 61, 0, 64⟩ 64
          = .settle true
      ∧ (0 : Int) + media_group_max_wait < 64 := by
  exact ⟨by decide, by decide, rfl, by decide⟩

/-- **C4 (counterexample)**: a downloading group that exceeds
`download_timeout` is only deleted from `self.media_groups`: its partially
downloaded artifact `g1.mp4` is not discarded and the download task keeps
running; when that task completes it still forwards the bundle even though
the group entry is gone. -/
theorem download_timeout_keeps_artifacts_cex :
    downloadTimerFire download_timeout ⟨true, 0, ["g1.mp4"], true⟩ 3601
        = ⟨false, 0, ["g1.mp4"], true⟩
      ∧ downloadCompleteForwards ["g1.mp4"] false = true := by
  exact ⟨rfl, rfl⟩

/-- **C4 (amended)**: when elapsed download time exceeds the timeout, the
monitor removes the group's entry and does nothing else: the partial
artifacts are not deleted, the download task is not cancelled, and the
completion path forwards a non-empty bundle whether or not the group entry
still exists. -/
theorem download_timeout_removes_state_only (Tdl t : Int) (s : DLState)
    (h : Tdl < t - s.download_start_time) :
    downloadTimerFire Tdl s t = { s with groupPresent := false }
      ∧ downloadCompleteForwards s.files true = !s.files.isEmpty
      ∧ downloadCompleteForwards s.files false = !s.files.isEmpty := by
  refine ⟨?_, rfl, rfl⟩
  unfold downloadTimerFire
  rw [if_pos h]

/-- A proxy record used in rotation scenarios. -/
def pA : Proxy := ⟨"socks5", "h1", 1080, "", "", "h1:1080"⟩

/-- A second proxy record used in rotation scenarios. -/
def pB : Proxy := ⟨"socks5", "h2", 1080, "", "", "h2:1080"⟩

/-- A two-proxy pool at index 0 with an empty failed-set. -/
def stW : PMState := ⟨0, [pA, pB], 0, []⟩

/-- The rotation scan never changes the candidate list. -/
theorem rotateLoop_list (test : Proxy → Bool) (now : Int) (oi : Nat) :
    ∀ (fuel : Nat) (st : PMState),
      (rotateLoop test now oi fuel st).proxy_list = st.proxy_list := by
  intro fuel
  induction fuel with
  | zero => intro st; rfl
  | succ n ih =>
    intro st
    simp only [rotateLoop]
    cases h : st.proxy_list[(st.current_proxy_index + 1) % st.proxy_list.length]? with
    | none => simp [h]
    | some p =>
      simp only [h]
      by_cases hc : proxyKey p ∈ st.failed_proxies
      · simp only [if_pos hc]
        exact ih _
      · by_cases ht : test p = true
        · simp [if_neg hc, ht]
        · simp only [if_neg hc, ht, Bool.false_eq_true, if_false]
          exact ih _

/-- The scan either leaves the index where it was (after restoring it on a
full-cycle failure) or lands on a candidate that passed its probe. -/
theorem rotateLoop_accepts_reachable (test : Proxy → Bool) (now : Int)
    (oi : Nat) :
    ∀ (fuel : Nat) (st : PMState), st.proxy_list ≠ [] →
      (rotateLoop test now oi fuel st).current_proxy_index = oi
        ∨ ∃ p, (rotateLoop test now oi fuel st).proxy_list[
            (rotateLoop test now oi fuel st).current_proxy_index]? = some p
            ∧ test p = true := by
  intro fuel
  induction fuel with
  | zero => intro st _; left; rfl
  | succ n ih =>
    intro st hne
    have hpos : 0 < st.proxy_list.length := List.length_pos.mpr hne
    have hlt : (st.current_proxy_index + 1) % st.proxy_list.length
        < st.proxy_list.length := Nat.mod_lt _ hpos
    simp only [rotateLoop]
    cases h : st.proxy_list[(st.current_proxy_index + 1) % st.proxy_list.length]? with
    | none =>
      exfalso
      rw [List.getElem?_eq_getElem hlt] at h
      cases h
    | some p =>
      simp only [h]
      by_cases hc : proxyKey p ∈ st.failed_proxies
      · simp only [if_pos hc]
        exact ih _ hne
      · by_cases ht : test p = true
        · simp only [if_neg hc, ht, if_true]
          right
          exact ⟨p, h, ht⟩
        · simp only [if_neg hc, ht, Bool.false_eq_true, if_false]
          exact ih _ hne

/-- When every candidate is already in the failed-set or fails its probe,
the scan exhausts all attempts: the failed-set is cleared, the prior index
is restored, and nothing else (list, last-rotation time) changes. -/
theorem rotateLoop_full_failure (test : Proxy → Bool) (now : Int)
    (oi : Nat) :
    ∀ (fuel : Nat) (st : PMState), st.proxy_list ≠ [] →
      (∀ p ∈ st.proxy_list, proxyKey p ∈ st.failed_proxies ∨ test p = false) →
      rotateLoop test now oi fuel st
        = ⟨oi, st.proxy_list, st.last_rotation_time, []⟩ := by
  intro fuel
  induction fuel with
  | zero => intro st _ _; rfl
  | succ n ih =>
    intro st hne hall
    have hpos : 0 < st.proxy_list.length := List.length_pos.mpr hne
    have hlt : (st.current_proxy_index + 1) % st.proxy_list.length
        < st.proxy_list.length := Nat.mod_lt _ hpos
    simp only [rotateLoop]
    cases h : st.proxy_list[(st.current_proxy_index + 1) % st.proxy_list.length]? with
    | none =>
      exfalso
      rw [List.getElem?_eq_getElem hlt] at h
      cases h
    | some p =>
      have hmem : p ∈ st.proxy_list := by
        rw [List.getElem?_eq_getElem hlt] at h
        cases h
        exact List.getElem_mem hlt
      simp only [h]
      by_cases hc : proxyKey p ∈ st.failed_proxies
      · simp only [if_pos hc]
        exact ih _ hne hall
      · have ht : test p = false := (hall p hmem).resolve_left hc
        simp only [if_neg hc, ht, Bool.false_eq_true, if_false]
        refine ih _ hne ?_
        intro q hq
        rcases hall q hq with hcq | htq
        · exact Or.inl (List.mem_cons_of_mem _ hcq)
        · exact Or.inr htq

/-- **C6 (amended)**: the rotation scan starts just after the current index,
skips failed-set members, probes candidates, and never leaves an
unreachable candidate selected: afterwards the index is either unchanged
(restored) or points at a candidate whose probe passed.  On a full-cycle
failure the failed-set is cleared and the prior index retained.  However
the outcome is not reported: `_rotate_to_next_proxy` returns `None`, and
`force_rotate_proxy` (which skips the elapsed-time gate of
`_should_rotate_proxy`) returns `True` whenever the pool has at least two
candidates, regardless of the rotation's outcome. -/
theorem rotation_scan_properties (test : Proxy → Bool) (now : Int)
    (st : PMState) (h : st.proxy_list ≠ []) :
    (rotate_to_next_proxy test now st).proxy_list = st.proxy_list
      ∧ ((rotate_to_next_proxy test now st).current_proxy_index
            = st.current_proxy_index
          ∨ ∃ p, (rotate_to_next_proxy test now st).proxy_list[
              (rotate_to_next_proxy test now st).current_proxy_index]? = some p
              ∧ test p = true)
      ∧ ((∀ p ∈ st.proxy_list,
            proxyKey p ∈ st.failed_proxies ∨ test p = false) →
          rotate_to_next_proxy test now st = { st with failed_proxies := [] })
      ∧ (2 ≤ st.proxy_list.length →
          force_rotate_proxy test now st
            = (true, rotate_to_next_proxy test now st)) := by
  refine ⟨rotateLoop_list test now _ _ st,
    rotateLoop_accepts_reachable test now _ _ st h, ?_, ?_⟩
  · intro hall
    exact rotateLoop_full_failure test now _ _ st h hall
  · intro h2
    unfold force_rotate_proxy
    rw [if_neg (by omega)]

/-- Witness for `rotation_scan_properties`: a two-proxy pool whose probes
all fail. -/
theorem rotation_scan_properties_witness :
    (rotate_to_next_proxy (fun _ => false) 0 stW).proxy_list = stW.proxy_list
      ∧ rotate_to_next_proxy (fun _ => false) 0 stW
          = { stW with failed_proxies := [] }
      ∧ force_rotate_proxy (fun _ => false) 0 stW
          = (true, rotate_to_next_proxy (fun _ => false) 0 stW) :=
  ⟨(rotation_scan_properties (fun _ => false) 0 stW (by decide)).1,
   (rotation_scan_properties (fun _ => false) 0 stW (by decide)).2.2.1
     (fun _ _ => Or.inr rfl),
   (rotation_scan_properties (fun _ => false) 0 stW (by decide)).2.2.2
     (by decide)⟩

/-- **C6 (counterexample)**: on a full-cycle failure (both candidates fail
every probe) the state shows the failure was taken — failed-set cleared,
index restored — yet `force_rotate_proxy` still returns `True`: the call
does not report failure. -/
theorem force_rotate_true_on_full_failure_cex :
    force_rotate_proxy (fun _ => false) 0 stW = (true, stW)
      ∧ (force_rotate_proxy (fun _ => false) 0 stW).1 ≠ false := by
  exact ⟨by decide, by decide⟩

/-- Witness for `download_timeout_removes_state_only`. -/
theorem download_timeout_removes_state_only_witness :
    downloadTimerFire 3600 ⟨true, 10, ["g2.mp4"], true⟩ 7777
        = { DLState.mk true 10 ["g2.mp4"] true with groupPresent := false }
      ∧ downloadCompleteForwards (DLState.mk true 10 ["g2.mp4"] true).files
          true = !(DLState.mk true 10 ["g2.mp4"] true).files.isEmpty
      ∧ downloadCompleteForwards (DLState.mk true 10 ["g2.mp4"] true).files
          false = !(DLState.mk true 10 ["g2.mp4"] true).files.isEmpty :=
  download_timeout_removes_state_only 3600 7777 ⟨true, 10, ["g2.mp4"], true⟩
    (by decide)

/-! ## Multi-tick dispatch runs (for the retry/terminal counter claim) -/

/-- A schedule of poll-tick instants spaced 1000 s apart (wider than the
largest possible `uniform(300, 900)` backoff, so a rescheduled item is
always due again by the next modelled tick). -/
def tickTime (i : Nat) : Int := 1000 * ((i : Int) + 1)

/-- Run `n` consecutive `_process_queue` ticks, the first at `tickTime i`. -/
def runTicksFrom (env : TickEnv) :
    Nat → Nat → QueueState × List String → QueueState × List String
  | _, 0, p => p
  | i, n + 1, p =>
      runTicksFrom env (i + 1) n (processTick env (tickTime i) p.1 p.2)

theorem processTick_nil (env : TickEnv) (now : Int) (a b c : Nat)
    (fs : List String) :
    processTick env now ⟨[], a, b, c⟩ fs = (⟨[], a, b, c⟩, fs) := rfl

/-- A tick never invents work: with an empty queue every later tick leaves
the state untouched (a terminally handled item is never dispatched again). -/
theorem runTicksFrom_nil (env : TickEnv) :
    ∀ (n i : Nat) (a b c : Nat) (fs : List String),
      runTicksFrom env i n (⟨[], a, b, c⟩, fs) = (⟨[], a, b, c⟩, fs) := by
  intro n
  induction n with
  | zero => intro i a b c fs; rfl
  | succ m ih =>
    intro i a b c fs
    simp only [runTicksFrom, processTick_nil]
    exact ih (i + 1) a b c fs

/-- A tick on a single-item queue whose item is due reduces to processing
that one item. -/
theorem processTick_singleton (env : TickEnv) (now : Int)
    (m : QueuedMessage) (a b c : Nat) (fs : List String)
    (h : m.send_time ≤ now) :
    processTick env now ⟨[m], a, b, c⟩ fs
      = processOne env now m ⟨[], a, b, c⟩ fs := by
  have hd : decide (m.send_time ≤ now) = true := decide_eq_true h
  simp [processTick, List.filter_cons, hd]

/-- An item that fails its first `k` dispatch attempts (`sendOk` succeeds
exactly from retry count `k` on) and then succeeds: after `k + 1` ticks the
item is gone, `total_sent` grew by one and `total_failed` is unchanged. -/
theorem runTicks_fail_then_succeed (env : TickEnv) (k R : Nat)
    (hok : ∀ m, env.sendOk m = decide (k ≤ m.retry_count))
    (hrd : ∀ m, 300 ≤ env.retryDelay m ∧ env.retryDelay m ≤ 900) :
    ∀ (n i : Nat) (m : QueuedMessage) (a b c : Nat) (fs : List String),
      n ≤ k → k < R → m.retry_count = k - n → m.max_retries = R →
      m.send_time ≤ tickTime i →
      ∃ fs', runTicksFrom env i (n + 1) (⟨[m], a, b, c⟩, fs)
        = (⟨[], a, b + 1, c⟩, fs') := by
  intro n
  induction n with
  | zero =>
    intro i m a b c fs _ _ hrc _ hsend
    have hok' : env.sendOk m = true := by
      rw [hok, hrc]
      simp
    refine ⟨cleanup_files m.files fs, ?_⟩
    simp only [runTicksFrom]
    rw [processTick_singleton env (tickTime i) m a b c fs hsend]
    unfold processOne
    rw [hok']
    simp only [if_true]
  | succ nn ih =>
    intro i m a b c fs hnk hkR hrc hmr hsend
    have hfail : env.sendOk m = false := by
      rw [hok]
      simp only [decide_eq_false_iff_not]
      omega
    have hret : m.retry_count < m.max_retries := by
      rw [hrc, hmr]
      omega
    simp only [runTicksFrom]
    rw [processTick_singleton env (tickTime i) m a b c fs hsend]
    unfold processOne
    rw [hfail]
    simp only [Bool.false_eq_true, if_false, if_pos hret]
    have hgap := hrd m
    refine ih (i + 1)
      { m with retry_count := m.retry_count + 1,
               send_time := tickTime i + env.retryDelay m }
      a b c fs (by omega) hkR ?_ hmr ?_
    · simp only []
      omega
    · simp only [tickTime]
      push_cast
      omega

/-- An item that fails every dispatch attempt: after `R + 1` ticks (the
initial attempt plus `R` retries) the item is gone, `total_failed` grew by
one, `total_sent` is unchanged, and no file was deleted. -/
theorem runTicks_all_fail (env : TickEnv) (R : Nat)
    (hok : ∀ m, env.sendOk m = false)
    (hrd : ∀ m, 300 ≤ env.retryDelay m ∧ env.retryDelay m ≤ 900) :
    ∀ (n i : Nat) (m : QueuedMessage) (a b c : Nat) (fs : List String),
      n ≤ R → m.retry_count = R - n → m.max_retries = R →
      m.send_time ≤ tickTime i →
      runTicksFrom env i (n + 1) (⟨[m], a, b, c⟩, fs)
        = (⟨[], a, b, c + 1⟩, fs) := by
  intro n
  induction n with
  | zero =>
    intro i m a b c fs _ hrc hmr hsend
    have hterm : ¬ m.retry_count < m.max_retries := by
      rw [hrc, hmr]
      omega
    simp only [runTicksFrom]
    rw [processTick_singleton env (tickTime i) m a b c fs hsend]
    unfold processOne
    rw [hok m]
    simp only [Bool.false_eq_true, if_false, if_neg hterm]
  | succ nn ih =>
    intro i m a b c fs hnR hrc hmr hsend
    have hret : m.retry_count < m.max_retries := by
      rw [hrc, hmr]
      omega
    simp only [runTicksFrom]
    rw [processTick_singleton env (tickTime i) m a b c fs hsend]
    unfold processOne
    rw [hok m]
    simp only [Bool.false_eq_true, if_false, if_pos hret]
    have hgap := hrd m
    refine ih (i + 1)
      { m with retry_count := m.retry_count + 1,
               send_time := tickTime i + env.retryDelay m }
      a b c fs (by omega) ?_ hmr ?_
    · simp only []
      omega
    · simp only [tickTime]
      push_cast
      omega

/-- **C5**: starting from retry count 0 with `max_retries = R`: an item
failing dispatch exactly `k < R` times and then succeeding bumps
`total_sent` by one with `total_failed` unchanged and leaves the queue; an
item failing all `R + 1` attempts bumps `total_failed` by one with
`total_sent` unchanged, is removed, and — the queue then being empty — is
never dispatched by any later tick. -/
theorem retry_then_terminal_counters (env1 env2 : TickEnv) (k R : Nat)
    (m1 m2 : QueuedMessage) (a b c : Nat) (fs1 fs2 : List String) (i : Nat)
    (hok1 : ∀ m, env1.sendOk m = decide (k ≤ m.retry_count))
    (hrd1 : ∀ m, 300 ≤ env1.retryDelay m ∧ env1.retryDelay m ≤ 900)
    (hok2 : ∀ m, env2.sendOk m = false)
    (hrd2 : ∀ m, 300 ≤ env2.retryDelay m ∧ env2.retryDelay m ≤ 900)
    (hk : k < R)
    (h1rc : m1.retry_count = 0) (h1mr : m1.max_retries = R)
    (h1send : m1.send_time ≤ tickTime i)
    (h2rc : m2.retry_count = 0) (h2mr : m2.max_retries = R)
    (h2send : m2.send_time ≤ tickTime i) :
    (∃ fs', runTicksFrom env1 i (k + 1) (⟨[m1], a, b, c⟩, fs1)
        = (⟨[], a, b + 1, c⟩, fs'))
      ∧ runTicksFrom env2 i (R + 1) (⟨[m2], a, b, c⟩, fs2)
          = (⟨[], a, b, c + 1⟩, fs2)
      ∧ (∀ (j n : Nat), runTicksFrom env2 j n (⟨[], a, b, c + 1⟩, fs2)
          = (⟨[], a, b, c + 1⟩, fs2)) := by
  refine ⟨?_, ?_, ?_⟩
  · exact runTicks_fail_then_succeed env1 k R hok1 hrd1 k i m1 a b c fs1
      le_rfl hk (by rw [h1rc, Nat.sub_self]) h1mr h1send
  · exact runTicks_all_fail env2 R hok2 hrd2 R i m2 a b c fs2
      le_rfl (by rw [h2rc, Nat.sub_self]) h2mr h2send
  · intro j n
    exact runTicksFrom_nil env2 n j a b (c + 1) fs2

/-- A fresh item (retry count 0, three max retries, no files). -/
def mW : QueuedMessage := ⟨2, "ch", [], "t", 0, 0, 0, 0, 3⟩

/-- An environment in which dispatch fails until the retry count reaches 1
and succeeds from then on, with a constant 300 s backoff draw. -/
def envSucc1 : TickEnv := ⟨fun m => decide (1 ≤ m.retry_count), fun _ => 300⟩

/-- An environment in which dispatch always fails, with a constant 300 s
backoff draw. -/
def envAllFail : TickEnv := ⟨fun _ => false, fun _ => 300⟩

/-- Witness for `retry_then_terminal_counters` with `k = 1`, `R = 3`. -/
theorem retry_then_terminal_counters_witness :
    (∃ fs', runTicksFrom envSucc1 0 2 (⟨[mW], 0, 0, 0⟩, [])
        = (⟨[], 0, 1, 0⟩, fs'))
      ∧ runTicksFrom envAllFail 0 4 (⟨[mW], 0, 0, 0⟩, [])
          = (⟨[], 0, 0, 1⟩, [])
      ∧ (∀ (j n : Nat), runTicksFrom envAllFail j n (⟨[], 0, 0, 1⟩, [])
          = (⟨[], 0, 0, 1⟩, [])) :=
  retry_then_terminal_counters envSucc1 envAllFail 1 3 mW mW 0 0 0 [] [] 0
    (fun _ => rfl) (fun _ => ⟨le_rfl, by norm_num [envSucc1]⟩)
    (fun _ => rfl) (fun _ => ⟨le_rfl, by norm_num [envAllFail]⟩)
    (by decide) rfl rfl (by decide) rfl rfl (by decide)

/-! ## Parser properties -/

/-- **C10**: the text proxy-list parser is total and line-local: parsing the
concatenation of two line lists concatenates the results (so a malformed
line never aborts the parse of the remaining lines), the result is exactly
the well-formed entries in file order (the `filterMap` of the per-line
parse, with blank and `#` lines skipped), and on a representative input each
malformed category — no `://` separator, missing `host:port` split,
non-integer port — is dropped while the surrounding well-formed lines still
parse, in order. -/
theorem parse_text_proxy_list_wellformed :
    (∀ ls1 ls2 : List (List Char),
        parseLinesLoop (ls1 ++ ls2) = parseLinesLoop ls1 ++ parseLinesLoop ls2)
      ∧ (∀ ls : List (List Char), parseLinesLoop ls
          = ls.filterMap (fun raw =>
              if pyStrip raw = [] then none
              else if startsWithHash (pyStrip raw) then none
              else parseProxyLine (pyStrip raw)))
      ∧ parseTextProxyList
          ("socks5://u:p@h1:1080\n \n# comment\nbadline\nhttp://h2:80x\nh4:80\nsocks4://h3:999".toList)
          = [⟨"socks5", "h1", 1080, "u", "p", "h1:1080"⟩,
             ⟨"socks4", "h3", 999, "", "", "h3:999"⟩]
      ∧ parseProxyLine "badline".toList = none
      ∧ parseProxyLine "http://h2:80x".toList = none
      ∧ parseProxyLine "h4:80".toList = none := by
  refine ⟨?_, ?_, by decide, by decide, by decide, by decide⟩
  · intro ls1 ls2
    induction ls1 with
    | nil => rfl
    | cons raw rest ih =>
      simp only [List.cons_append, parseLinesLoop]
      by_cases h1 : pyStrip raw = []
      · simp [h1, ih]
      · by_cases h2 : startsWithHash (pyStrip raw) = true
        · simp [h1, h2, ih]
        · cases h3 : parseProxyLine (pyStrip raw) with
          | some p => simp [h1, h2, h3, ih]
          | none => simp [h1, h2, h3, ih]
  · intro ls
    induction ls with
    | nil => rfl
    | cons raw rest ih =>
      simp only [parseLinesLoop, List.filterMap_cons]
      by_cases h1 : pyStrip raw = []
      · simp [h1, ih]
      · by_cases h2 : startsWithHash (pyStrip raw) = true
        · simp [h1, h2, ih]
        · cases h3 : parseProxyLine (pyStrip raw) with
          | some p => simp [h1, h2, h3, ih]
          | none => simp [h1, h2, h3, ih]

end DownloadBot
